import Mathlib

/-!
Verification development for the Durante Invariance Forensic Analyzer
(ACI) engine.  The Python sources under `src/Core`, `src/Audit` and
`src/Sovereignty` are shallowly embedded below: pure functions become Lean
functions, floating-point arithmetic is modelled exactly over `ℚ` (all the
quantities the analysed properties inspect are exact rational expressions of
integer counts), genuinely irrational quantities (cosine similarity,
KL divergence, standard deviations) are modelled over `ℝ`, and Python
exceptions become `Except String` results.
-/

/-! ## Lexical feature space (src/Core/semantic_vector_space.py)

`SemanticVectorSpace` wraps sklearn's `TfidfVectorizer` with
`ngram_range=(1,2)`, `min_df=1`, `lowercase=True`,
`token_pattern=r'(?u)\b\w\w+\b'` and `max_features=1000`.  The tokenizer is
modelled for ASCII word characters (`\w` = letters, digits, underscore); the
vectors are modelled by their raw term-frequency components.  The tf-idf
transform multiplies each component by a strictly positive factor (the smooth
idf is at least 1 and the l2 normalisation divides by a positive norm), so a
component of the real tf-idf vector is nonzero exactly when the corresponding
count is nonzero, and the `1e-6` activation threshold used by
`dimensionality_intersection` sits below every nonzero weight produced for
the corpora at issue: the activation pattern, which is all the downstream
code reads off the vectors besides the (real-valued) similarity metrics, is
preserved by this representation. -/

/-- Word characters of the token pattern `\w` (modelled for ASCII). -/
def isWordChar (c : Char) : Bool := c.isAlphanum || c == '_'

/-- Maximal runs of word characters of a character list; the accumulator
holds the current run in reverse. -/
def tokenRuns : List Char → List Char → List (List Char)
  | [], acc => if acc.isEmpty then [] else [acc.reverse]
  | c :: cs, acc =>
    if isWordChar c then tokenRuns cs (c :: acc)
    else if acc.isEmpty then tokenRuns cs [] else acc.reverse :: tokenRuns cs []

/-- Tokenization of `TfidfVectorizer`: lowercase, split on non-word
characters, keep only tokens with at least two characters
(`token_pattern=r'(?u)\b\w\w+\b'`). -/
def tokenize (s : String) : List String :=
  ((tokenRuns (s.data.map Char.toLower) []).filter (fun t => 2 ≤ t.length)).map
    List.asString

/-- Bigrams of a token list, joined by a single space as sklearn does. -/
def bigrams : List String → List String
  | a :: b :: rest => (a ++ " " ++ b) :: bigrams (b :: rest)
  | _ => []

/-- Terms contributed by one document under `ngram_range=(1,2)`:
unigrams and bigrams. -/
def ngrams (s : String) : List String := tokenize s ++ bigrams (tokenize s)

/-- Dimensionality bound of the vector space (`max_features=1000`). -/
def maxFeatures : Nat := 1000

/-- Combined number of occurrences of a term in the two-document corpus
(used by the `max_features` cap). -/
def corpusCount (tO tC g : String) : Nat :=
  (ngrams tO).count g + (ngrams tC).count g

/-- Alphabetically sorted, duplicate-free joint vocabulary of the pair. -/
def sortedVocab (tO tC : String) : List String :=
  (List.insertionSort (fun a b : String => a ≤ b) (ngrams tO ++ ngrams tC)).dedup

/-- Joint vocabulary after the `max_features` cap: when more than
`max_features` distinct terms exist, only the terms with the highest corpus
frequency are kept (ties resolved alphabetically, an idealisation of
sklearn's internal tie order; no analysed property exercises the cap). -/
def buildVocab (tO tC : String) : List String :=
  let v := sortedVocab tO tC
  if v.length ≤ maxFeatures then v
  else
    let kept := (List.insertionSort
      (fun a b => corpusCount tO tC b < corpusCount tO tC a ∨
        (corpusCount tO tC a = corpusCount tO tC b ∧ a ≤ b)) v).take maxFeatures
    v.filter (fun g => kept.contains g)

/-- Message of the `ValueError` sklearn raises when the fitted vocabulary is
empty (both documents lack tokens of length at least two). -/
def emptyVocabMsg : String :=
  "empty vocabulary; perhaps the documents only contain stop words"

/-- Embeds `SemanticVectorSpace.fit_transform`: projects the two texts over
the joint vocabulary, producing one component per vocabulary term.
Components are the term frequencies (see the module comment above for why
this representation is faithful); an empty vocabulary raises. -/
def fit_transform (tO tC : String) : Except String (List ℚ × List ℚ) :=
  let vocab := buildVocab tO tC
  if vocab.isEmpty then .error emptyVocabMsg
  else .ok
    (vocab.map (fun g => ((ngrams tO).count g : ℚ)),
     vocab.map (fun g => ((ngrams tC).count g : ℚ)))

/-- Activation of a vector component: absolute value above the fixed
threshold `1e-6` of `dimensionality_intersection`. -/
def isActive (x : ℚ) : Bool := decide ((1 : ℚ)/1000000 < |x|)

/-- Result triple of `SemanticVectorSpace.dimensionality_intersection`. -/
structure Dims where
  dim_V_O : Nat
  dim_V_C : Nat
  dim_intersection : Nat
deriving DecidableEq, Repr

/-- Embeds the dimensionality computation of
`SemanticVectorSpace.dimensionality_intersection`: effective dimension of
each vector is the number of active components, the intersection counts the
positions active in both vectors simultaneously. -/
def dimensionality_intersection (vO vC : List ℚ) : Dims where
  dim_V_O := vO.countP isActive
  dim_V_C := vC.countP isActive
  dim_intersection := (vO.zip vC).countP (fun pr => isActive pr.1 && isActive pr.2)

/-! ## Degradation index (src/Core/degradation_index.py) -/

/-- Embeds the `DegradationResult` dataclass.  Percentages and the index are
exact rationals. -/
structure DegradationResult where
  I_D : ℚ
  dim_V_O : Nat
  dim_V_C : Nat
  dim_intersection : Nat
  status : String
  interference_detected : Bool
  degradation_percentage : ℚ
  overlap_ratio : ℚ
deriving DecidableEq, Repr

/-- Threshold `DegradationIndexCalculator.CRITICAL_THRESHOLD = 0.4`. -/
def CRITICAL_THRESHOLD : ℚ := 2/5

/-- Threshold `DegradationIndexCalculator.HIGH_THRESHOLD = 0.25`. -/
def HIGH_THRESHOLD : ℚ := 1/4

/-- Status string for `I_D` at or above the critical threshold. -/
def statusCritical : String := "INTERFERENCIA_CRITICA"

/-- Status string for `I_D` at or above the high threshold. -/
def statusHigh : String := "INTERFERENCIA_ALTA"

/-- Status string below both thresholds. -/
def statusStable : String := "ESTABLE"

/-- Embeds `DegradationIndexCalculator.calculate`: builds the feature space,
reads the dimensionalities, computes `I_D = 1 - dim_intersection/dim_V_O`
(0 when `dim_V_O = 0`), classifies the status against the two thresholds and
assembles the result record.  A raise inside `fit_transform` propagates. -/
def calculate (text_origin text_control : String) :
    Except String DegradationResult :=
  match fit_transform text_origin text_control with
  | .error e => .error e
  | .ok (vO, vC) =>
    let dims := dimensionality_intersection vO vC
    let dim_O := dims.dim_V_O
    let dim_C := dims.dim_V_C
    let dim_inter := dims.dim_intersection
    let overlap_ratio : ℚ := if dim_O = 0 then 0 else (dim_inter : ℚ) / (dim_O : ℚ)
    let I_D : ℚ := if dim_O = 0 then 0 else 1 - overlap_ratio
    let status : String :=
      if CRITICAL_THRESHOLD ≤ I_D then statusCritical
      else if HIGH_THRESHOLD ≤ I_D then statusHigh
      else statusStable
    let interference_detected : Bool :=
      if CRITICAL_THRESHOLD ≤ I_D then true
      else if HIGH_THRESHOLD ≤ I_D then true
      else false
    .ok
      { I_D := I_D
        dim_V_O := dim_O
        dim_V_C := dim_C
        dim_intersection := dim_inter
        status := status
        interference_detected := interference_detected
        degradation_percentage := I_D * 100
        overlap_ratio := overlap_ratio * 100 }

/-! ## Vector-space state and metrics (src/Core/semantic_vector_space.py)

The class instance state is the pair of optional fitted vectors plus the
feature names; `__init__` leaves all three unset.  Metric methods check the
state first and raise `ValueError` when `fit_transform` has not run.
Cosine similarity and KL divergence are genuinely irrational quantities and
are modelled over `ℝ`; sklearn's `cosine_similarity` guards zero-norm rows
(a zero vector yields similarity 0). -/

/-- Dot product of two rational vectors (componentwise up to the shorter
length, as numpy operates on equal-length rows here). -/
def dotQ (v w : List ℚ) : ℚ := ((v.zip w).map (fun pr => pr.1 * pr.2)).sum

/-- Value of sklearn `cosine_similarity` on two rows: normalised dot
product, 0 when either row has zero norm. -/
noncomputable def cosineSimilarityVal (v w : List ℚ) : ℝ :=
  if dotQ v v = 0 ∨ dotQ w w = 0 then 0
  else ((dotQ v w : ℚ) : ℝ) / (Real.sqrt ((dotQ v v : ℚ) : ℝ) * Real.sqrt ((dotQ w w : ℚ) : ℝ))

/-- Epsilon `1e-10` added by `kl_divergence` to avoid zero probabilities. -/
noncomputable def klEpsilon : ℝ := 1 / 10000000000

/-- Value of `kl_divergence` on two fitted vectors: shift both by epsilon,
renormalise each to sum 1, return `Σ P_i log(P_i/Q_i)` (natural log, as
`scipy.stats.entropy` computes). -/
noncomputable def klDivergenceVal (vO vC : List ℚ) : ℝ :=
  let P := vO.map (fun x => ((x : ℚ) : ℝ) + klEpsilon)
  let Q := vC.map (fun x => ((x : ℚ) : ℝ) + klEpsilon)
  let Pn := P.map (fun x => x / P.sum)
  let Qn := Q.map (fun x => x / Q.sum)
  ((Pn.zip Qn).map (fun pr => pr.1 * Real.log (pr.1 / pr.2))).sum

/-- Embeds the `SemanticVectorSpace` instance state: the two optional
fitted vectors and the vocabulary (`feature_names`).  The `max_features`
constructor argument is fixed at its default 1000 (`maxFeatures`). -/
structure SemanticVectorSpace where
  V_O : Option (List ℚ)
  V_C : Option (List ℚ)
  feature_names : Option (List String)

/-- State of a freshly constructed `SemanticVectorSpace` (`__init__`):
no vector has been fitted yet. -/
def newSpace : SemanticVectorSpace := ⟨none, none, none⟩

/-- Message of the `ValueError` raised by `cosine_distance` before
`fit_transform`. -/
def notInitMsgLong : String :=
  "Vectores no inicializados. Ejecutar fit_transform primero."

/-- Message of the `ValueError` raised by the other metrics before
`fit_transform`. -/
def notInitMsgShort : String := "Vectores no inicializados."

/-- State after `fit_transform(text_origin, text_control)` succeeded on a
fresh space. -/
def fittedSpace (tO tC : String) : Except String SemanticVectorSpace :=
  match fit_transform tO tC with
  | .error e => .error e
  | .ok (vO, vC) => .ok ⟨some vO, some vC, some (buildVocab tO tC)⟩

/-- Embeds the method `SemanticVectorSpace.cosine_distance`:
`1 - cosine_similarity`, raising when the vectors are not initialised. -/
noncomputable def SemanticVectorSpace.cosine_distance
    (s : SemanticVectorSpace) : Except String ℝ :=
  match s.V_O, s.V_C with
  | some vO, some vC => .ok (1 - cosineSimilarityVal vO vC)
  | _, _ => .error notInitMsgLong

/-- Embeds the method `SemanticVectorSpace.cosine_similarity_score`. -/
noncomputable def SemanticVectorSpace.cosine_similarity_score
    (s : SemanticVectorSpace) : Except String ℝ :=
  match s.V_O, s.V_C with
  | some vO, some vC => .ok (cosineSimilarityVal vO vC)
  | _, _ => .error notInitMsgShort

/-- Embeds the method `SemanticVectorSpace.kl_divergence`. -/
noncomputable def SemanticVectorSpace.kl_divergence
    (s : SemanticVectorSpace) : Except String ℝ :=
  match s.V_O, s.V_C with
  | some vO, some vC => .ok (klDivergenceVal vO vC)
  | _, _ => .error notInitMsgShort

/-- Embeds the method `SemanticVectorSpace.dimensionality_intersection`
(the vector-level computation is `dimensionality_intersection` above). -/
def SemanticVectorSpace.dims (s : SemanticVectorSpace) : Except String Dims :=
  match s.V_O, s.V_C with
  | some vO, some vC => .ok (dimensionality_intersection vO vC)
  | _, _ => .error notInitMsgShort

/-- Record returned by `SemanticVectorSpace.analyze_semantic_overlap` (the
`top_features_*` listings, which no analysed property reads, are omitted). -/
structure OverlapAnalysis where
  dimensionality : Dims
  cosine_similarity : ℝ
  cosine_distance : ℝ
  kl_divergence : ℝ
  overlap_ratio : ℚ

/-- Embeds the method `SemanticVectorSpace.analyze_semantic_overlap`:
raises before `fit_transform`, otherwise assembles the dimensionalities,
both cosine metrics, the KL divergence and the overlap ratio. -/
noncomputable def SemanticVectorSpace.analyze_semantic_overlap
    (s : SemanticVectorSpace) : Except String OverlapAnalysis :=
  match s.V_O, s.V_C with
  | some vO, some vC =>
    let dims := dimensionality_intersection vO vC
    .ok
      { dimensionality := dims
        cosine_similarity := cosineSimilarityVal vO vC
        cosine_distance := 1 - cosineSimilarityVal vO vC
        kl_divergence := klDivergenceVal vO vC
        overlap_ratio :=
          if 0 < dims.dim_V_O then (dims.dim_intersection : ℚ) / (dims.dim_V_O : ℚ)
          else 0 }
  | _, _ => .error notInitMsgShort

/-! ## Truth invariance validator (src/Core/truth_invariance.py) -/

/-- Threshold `TruthInvarianceValidator.INVARIANCE_THRESHOLD = 0.15`. -/
noncomputable def INVARIANCE_THRESHOLD : ℝ := 15 / 100

/-- Result dictionary of `TruthInvarianceValidator.calculate_gradient`. -/
structure GradientData where
  gradient_magnitude : ℝ
  mean_distance : ℝ
  std_distance : ℝ

/-- Zero/neutral gradient dictionary returned for an empty perturbation
list or when every comparison was skipped. -/
def zeroGradient : GradientData := ⟨0, 0, 0⟩

/-- Body of one iteration of the comparison loop in `calculate_gradient`:
fit a fresh pair-local feature space and take the cosine distance.  The
only raise is the empty-vocabulary `ValueError` out of `fit_transform`. -/
noncomputable def cosineDistancePair (tA tB : String) : Except String ℝ :=
  match fit_transform tA tB with
  | .error e => .error e
  | .ok (vO, vC) => .ok (1 - cosineSimilarityVal vO vC)

/-- Embeds `TruthInvarianceValidator.calculate_gradient`: cosine distance
of the original response against each perturbed response, comparisons that
raise are skipped (`except: continue`), the gradient magnitude is the mean
of the collected distances and the spread their population standard
deviation (`np.std`); both degenerate branches return the zero
dictionary. -/
noncomputable def calculate_gradient (original_response : String)
    (perturbed_responses : List String) : GradientData :=
  if perturbed_responses.isEmpty then zeroGradient
  else
    let distances := perturbed_responses.filterMap (fun p =>
      match cosineDistancePair original_response p with
      | .error _ => none
      | .ok d => some d)
    if distances.isEmpty then zeroGradient
    else
      let mean := distances.sum / (distances.length : ℝ)
      ⟨mean, mean,
        Real.sqrt (((distances.map (fun d => (d - mean) ^ 2)).sum) / (distances.length : ℝ))⟩

/-- Embeds the `InvarianceResult` dataclass; the boolean verdicts compare
real quantities and are modelled as propositions. -/
structure InvarianceResult where
  gradient_magnitude : ℝ
  is_invariant : Prop
  perturbation_responses : List String
  stability_score : ℝ
  bias_detected : Prop
  mean_distance : ℝ
  std_distance : ℝ

/-- Embeds `TruthInvarianceValidator.validate_invariance`: computes the
gradient dictionary and derives the verdict fields. -/
noncomputable def validate_invariance (original_response : String)
    (perturbed_responses : List String) : InvarianceResult :=
  let g := calculate_gradient original_response perturbed_responses
  { gradient_magnitude := g.gradient_magnitude
    is_invariant := g.gradient_magnitude < INVARIANCE_THRESHOLD
    perturbation_responses := perturbed_responses
    stability_score := max 0 (1 - g.gradient_magnitude / INVARIANCE_THRESHOLD)
    bias_detected := INVARIANCE_THRESHOLD ≤ g.gradient_magnitude
    mean_distance := g.mean_distance
    std_distance := g.std_distance }

/-! ## Degradation monitor (src/Audit/degradation_monitor.py) and temporal
analysis (src/Audit/temporal_analysis.py)

Timestamps are modelled as rational seconds: the source stores ISO 8601
strings, parses them back with `datetime.fromisoformat` and only ever
consumes differences scaled to days, so the exact rational time line is a
faithful carrier.  `datetime.utcnow()` calls become an explicit clock
parameter (`clock i` is the wall time of the `i`-th monitoring call). -/

/-- Embeds the `InteractionLog` dataclass of src/Audit/log_capture.py
(fields the monitor reads, plus the bookkeeping strings). -/
structure InteractionLog where
  session_id : String
  timestamp : ℚ
  prompt : String
  response_origin : String
  response_control : String
  root_hash : String
  session_hash : String
deriving DecidableEq, Repr

/-- Embeds `MonitoringResult` (the auxiliary `metrics` entropy dictionary,
which no analysed property reads, is omitted). -/
structure MonitoringResult where
  session_id : String
  timestamp : ℚ
  degradation : DegradationResult
  intervention_detected : Bool
  severity_level : String
  alert_triggered : Bool
deriving DecidableEq, Repr

/-- Threshold `DegradationMonitor.CRITICAL_THRESHOLD = 0.4`. -/
def DegradationMonitor.CRITICAL_THRESHOLD : ℚ := 2/5

/-- Threshold `DegradationMonitor.HIGH_THRESHOLD = 0.25`. -/
def DegradationMonitor.HIGH_THRESHOLD : ℚ := 1/4

/-- Threshold `DegradationMonitor.MEDIUM_THRESHOLD = 0.15`. -/
def DegradationMonitor.MEDIUM_THRESHOLD : ℚ := 3/20

/-- Embeds `DegradationMonitor._determine_severity`. -/
def determine_severity (I_D : ℚ) : String :=
  if DegradationMonitor.CRITICAL_THRESHOLD ≤ I_D then "CRITICAL"
  else if DegradationMonitor.HIGH_THRESHOLD ≤ I_D then "HIGH"
  else if DegradationMonitor.MEDIUM_THRESHOLD ≤ I_D then "MEDIUM"
  else "LOW"

/-- Embeds `DegradationMonitor.monitor_interaction` at wall time `ts`
(statistics bookkeeping, which no analysed property reads, is omitted).
The degradation calculation may raise out of `fit_transform`. -/
def monitor_interaction (ts : ℚ) (session_id _prompt response_origin
    response_control : String) : Except String MonitoringResult :=
  match calculate response_origin response_control with
  | .error e => .error e
  | .ok degradation =>
    .ok
      { session_id := session_id
        timestamp := ts
        degradation := degradation
        intervention_detected :=
          decide (DegradationMonitor.CRITICAL_THRESHOLD ≤ degradation.I_D)
        severity_level := determine_severity degradation.I_D
        alert_triggered :=
          decide (DegradationMonitor.MEDIUM_THRESHOLD ≤ degradation.I_D) }

/-- Embeds `DegradationMonitor.monitor_log`. -/
def monitor_log (ts : ℚ) (log : InteractionLog) : Except String MonitoringResult :=
  monitor_interaction ts log.session_id log.prompt log.response_origin
    log.response_control

/-- Monitoring loop of `DegradationMonitor.batch_monitor` from position
`i`: results are appended in order, a raise aborts the whole batch. -/
def monitorFrom (clock : Nat → ℚ) : Nat → List InteractionLog →
    Except String (List MonitoringResult)
  | _, [] => Except.ok []
  | i, log :: rest =>
    match monitor_log (clock i) log with
    | .error e => .error e
    | .ok r =>
      match monitorFrom clock (i + 1) rest with
      | .error e => .error e
      | .ok rs => .ok (r :: rs)

/-- Embeds `DegradationMonitor.batch_monitor`; the `i`-th monitoring call
happens at wall time `clock i`. -/
def batch_monitor (clock : Nat → ℚ) (logs : List InteractionLog) :
    Except String (List MonitoringResult) :=
  monitorFrom clock 0 logs

/-- Threshold `TemporalAnalyzer.STABLE_THRESHOLD = 0.05`. -/
def TemporalAnalyzer.STABLE_THRESHOLD : ℚ := 1/20

/-- Threshold `TemporalAnalyzer.MODERATE_THRESHOLD = 0.15`. -/
def TemporalAnalyzer.MODERATE_THRESHOLD : ℚ := 3/20

/-- Threshold `TemporalAnalyzer.HIGH_THRESHOLD = 0.30` (declared by the
source, never read by the analysed logic). -/
def TemporalAnalyzer.HIGH_THRESHOLD : ℚ := 3/10

/-- Embeds `TemporalAnalyzer._calculate_trend_slope`: ordinary
least-squares slope of the `I_D` values against elapsed days since the
first timestamp; 0 for fewer than two points or zero time variance.  (The
source indexes `timestamps[0]`; in `analyze_period` both lists always have
the same positive length, the empty-timestamp branch is unreachable.) -/
def calculate_trend_slope (I_D_values timestamps : List ℚ) : ℚ :=
  if I_D_values.length < 2 then 0
  else
    match timestamps with
    | [] => 0
    | t0 :: _ =>
      let days := timestamps.map (fun ts => (ts - t0) / 86400)
      let mean_x := days.sum / (days.length : ℚ)
      let mean_y := I_D_values.sum / (I_D_values.length : ℚ)
      let numerator :=
        ((days.zip I_D_values).map (fun pr => (pr.1 - mean_x) * (pr.2 - mean_y))).sum
      let denominator := (days.map (fun x => (x - mean_x) ^ 2)).sum
      if denominator = 0 then 0 else numerator / denominator

/-- Embeds `TemporalAnalyzer._determine_trend_direction`. -/
def determine_trend_direction (slope : ℚ) : String :=
  if |slope| < TemporalAnalyzer.STABLE_THRESHOLD then "STABLE"
  else if 0 < slope then "INCREASING"
  else "DECREASING"

/-- Embeds `TemporalAnalyzer._assess_thermal_death_risk`: three risk
factors, one point each, mapped to the four risk levels. -/
def assess_thermal_death_risk (mean_I_D trend_slope interventions_rate : ℚ) :
    String :=
  let high_baseline : Bool := decide ((35/100 : ℚ) ≤ mean_I_D)
  let increasing_trend : Bool :=
    decide (TemporalAnalyzer.MODERATE_THRESHOLD < trend_slope)
  let high_interventions : Bool := decide ((1/2 : ℚ) < interventions_rate)
  let risk_score := (if high_baseline then 1 else 0) +
    (if increasing_trend then 1 else 0) + (if high_interventions then 1 else 0)
  if 3 ≤ risk_score then "CRITICAL"
  else if risk_score = 2 then "HIGH"
  else if risk_score = 1 then "MEDIUM"
  else "LOW"

/-- Embeds the `TemporalMetrics` dataclass.  The degenerate empty-period
bounds (strings `"N/A"` in the source) are modelled as time 0; the sample
standard deviation is a real number. -/
structure TemporalMetrics where
  period_start : ℚ
  period_end : ℚ
  total_interactions : Nat
  mean_I_D : ℚ
  std_I_D : ℝ
  trend_slope : ℚ
  trend_direction : String
  interventions_count : Nat
  thermal_death_risk : String

/-- Embeds `TemporalAnalyzer.analyze_period`: the degenerate all-zero
result for an empty log list, otherwise the statistics of the monitored
batch (mean, sample standard deviation, OLS trend, intervention count and
rate) and the composite risk rating. -/
noncomputable def analyze_period (clock : Nat → ℚ) (logs : List InteractionLog) :
    Except String TemporalMetrics :=
  if logs.isEmpty then
    .ok
      { period_start := 0, period_end := 0, total_interactions := 0
        mean_I_D := 0, std_I_D := 0, trend_slope := 0
        trend_direction := "STABLE", interventions_count := 0
        thermal_death_risk := "LOW" }
  else
    match batch_monitor clock logs with
    | .error e => .error e
    | .ok results =>
      let I_D_values := results.map (fun r => r.degradation.I_D)
      let timestamps := results.map (fun r => r.timestamp)
      let mean_I_D := I_D_values.sum / (I_D_values.length : ℚ)
      let std_I_D : ℝ :=
        if 1 < I_D_values.length then
          Real.sqrt (((I_D_values.map
            (fun x => (((x - mean_I_D : ℚ) : ℝ)) ^ 2)).sum) /
            ((I_D_values.length : ℝ) - 1))
        else 0
      let trend_slope := calculate_trend_slope I_D_values timestamps
      let interventions_count :=
        (results.filter (fun r => r.intervention_detected)).length
      let interventions_rate : ℚ :=
        if results.isEmpty then 0
        else (interventions_count : ℚ) / (results.length : ℚ)
      .ok
        { period_start := timestamps.headD 0
          period_end := timestamps.getLastD 0
          total_interactions := logs.length
          mean_I_D := mean_I_D
          std_I_D := std_I_D
          trend_slope := trend_slope
          trend_direction := determine_trend_direction trend_slope
          interventions_count := interventions_count
          thermal_death_risk :=
            assess_thermal_death_risk mean_I_D trend_slope interventions_rate }

/-! ## SHA-256 (hashlib.sha256, FIPS 180-4)

The integrity chain hashes UTF-8 encoded strings with SHA-256 and reads the
digest back as lowercase hex (`hexdigest`).  Machine words are `Nat` values
kept below `2^32` by explicit reduction. -/

/-- Reduction of a natural number to a 32-bit machine word. -/
def w32 (x : Nat) : Nat := x % 4294967296

/-- Right rotation of a 32-bit word. -/
def rotr32 (x n : Nat) : Nat := w32 ((x >>> n) ||| (x <<< (32 - n)))

/-- Big sigma-0 of the SHA-256 round function. -/
def bigSigma0 (x : Nat) : Nat := rotr32 x 2 ^^^ (rotr32 x 13 ^^^ rotr32 x 22)

/-- Big sigma-1 of the SHA-256 round function. -/
def bigSigma1 (x : Nat) : Nat := rotr32 x 6 ^^^ (rotr32 x 11 ^^^ rotr32 x 25)

/-- Small sigma-0 of the SHA-256 message schedule. -/
def smallSigma0 (x : Nat) : Nat := rotr32 x 7 ^^^ (rotr32 x 18 ^^^ (x >>> 3))

/-- Small sigma-1 of the SHA-256 message schedule. -/
def smallSigma1 (x : Nat) : Nat := rotr32 x 17 ^^^ (rotr32 x 19 ^^^ (x >>> 10))

/-- Choice function of the SHA-256 round (bitwise `(x ∧ y) ⊕ (¬x ∧ z)`). -/
def chFn (x y z : Nat) : Nat := (x &&& y) ^^^ ((x ^^^ 4294967295) &&& z)

/-- Majority function of the SHA-256 round. -/
def majFn (x y z : Nat) : Nat := (x &&& y) ^^^ (x &&& z) ^^^ (y &&& z)

/-- Round constants K of SHA-256. -/
def sha256K : List Nat :=
  [1116352408, 1899447441, 3049323471, 3921009573,
   961987163, 1508970993, 2453635748, 2870763221,
   3624381080, 310598401, 607225278, 1426881987,
   1925078388, 2162078206, 2614888103, 3248222580,
   3835390401, 4022224774, 264347078, 604807628,
   770255983, 1249150122, 1555081692, 1996064986,
   2554220882, 2821834349, 2952996808, 3210313671,
   3336571891, 3584528711, 113926993, 338241895,
   666307205, 773529912, 1294757372, 1396182291,
   1695183700, 1986661051, 2177026350, 2456956037,
   2730485921, 2820302411, 3259730800, 3345764771,
   3516065817, 3600352804, 4094571909, 275423344,
   430227734, 506948616, 659060556, 883997877,
   958139571, 1322822218, 1537002063, 1747873779,
   1955562222, 2024104815, 2227730452, 2361852424,
   2428436474, 2756734187, 3204031479, 3329325298]

/-- Initial hash value H0 of SHA-256. -/
def sha256H0 : List Nat :=
  [1779033703, 3144134277, 1013904242, 2773480762,
   1359893119, 2600822924, 528734635, 1541459225]

/-- Extends a 16-word block by `n` further schedule words. -/
def schedule : Nat → List Nat → List Nat
  | 0, ws => ws
  | n + 1, ws =>
    schedule n (ws ++ [w32 (smallSigma1 (ws.getD (ws.length - 2) 0) +
      ws.getD (ws.length - 7) 0 + smallSigma0 (ws.getD (ws.length - 15) 0) +
      ws.getD (ws.length - 16) 0)])

/-- Working variables a–h of the SHA-256 compression loop. -/
structure SHAState where
  a : Nat
  b : Nat
  c : Nat
  d : Nat
  e : Nat
  f : Nat
  g : Nat
  h : Nat

/-- One round of the SHA-256 compression loop. -/
def roundStep (st : SHAState) (k w : Nat) : SHAState :=
  let t1 := w32 (st.h + bigSigma1 st.e + chFn st.e st.f st.g + k + w)
  let t2 := w32 (bigSigma0 st.a + majFn st.a st.b st.c)
  ⟨w32 (t1 + t2), st.a, st.b, st.c, w32 (st.d + t1), st.e, st.f, st.g⟩

/-- Compresses one 16-word message block into the running hash value. -/
def compressBlock (hs block : List Nat) : List Nat :=
  let ws := schedule 48 block
  let st0 : SHAState := ⟨hs.getD 0 0, hs.getD 1 0, hs.getD 2 0, hs.getD 3 0,
    hs.getD 4 0, hs.getD 5 0, hs.getD 6 0, hs.getD 7 0⟩
  let stF := (ws.zip sha256K).foldl (fun st pr => roundStep st pr.2 pr.1) st0
  [w32 (hs.getD 0 0 + stF.a), w32 (hs.getD 1 0 + stF.b),
   w32 (hs.getD 2 0 + stF.c), w32 (hs.getD 3 0 + stF.d),
   w32 (hs.getD 4 0 + stF.e), w32 (hs.getD 5 0 + stF.f),
   w32 (hs.getD 6 0 + stF.g), w32 (hs.getD 7 0 + stF.h)]

/-- Groups a byte list into big-endian 32-bit words. -/
def toWords : List Nat → List Nat
  | b0 :: b1 :: b2 :: b3 :: rest =>
    (((b0 * 256 + b1) * 256 + b2) * 256 + b3) :: toWords rest
  | _ => []

/-- Splits a byte list into `n` blocks of 64 bytes. -/
def splitBlocks : Nat → List Nat → List (List Nat)
  | 0, _ => []
  | n + 1, bs => bs.take 64 :: splitBlocks n (bs.drop 64)

/-- Big-endian 8-byte encoding of a (64-bit) length value. -/
def lengthBytes (n : Nat) : List Nat :=
  [(n >>> 56) % 256, (n >>> 48) % 256, (n >>> 40) % 256, (n >>> 32) % 256,
   (n >>> 24) % 256, (n >>> 16) % 256, (n >>> 8) % 256, n % 256]

/-- SHA-256 padding: the `0x80` byte, zeros up to 56 mod 64, and the bit
length as a big-endian 64-bit value. -/
def padMessage (m : List Nat) : List Nat :=
  m ++ [128] ++ List.replicate ((64 - ((m.length + 9) % 64)) % 64) 0 ++
    lengthBytes (m.length * 8)

/-- SHA-256 digest of a byte list, as eight 32-bit words. -/
def sha256Words (msg : List Nat) : List Nat :=
  let padded := padMessage msg
  ((splitBlocks (padded.length / 64) padded).map toWords).foldl compressBlock
    sha256H0

/-- Lowercase hexadecimal digit. -/
def hexDigitChar (n : Nat) : Char :=
  if n < 10 then Char.ofNat (48 + n) else Char.ofNat (87 + n)

/-- Eight hex characters of a 32-bit word. -/
def word2hex (n : Nat) : List Char :=
  [hexDigitChar ((n >>> 28) % 16), hexDigitChar ((n >>> 24) % 16),
   hexDigitChar ((n >>> 20) % 16), hexDigitChar ((n >>> 16) % 16),
   hexDigitChar ((n >>> 12) % 16), hexDigitChar ((n >>> 8) % 16),
   hexDigitChar ((n >>> 4) % 16), hexDigitChar (n % 16)]

/-- UTF-8 encoding of one character. -/
def utf8Bytes (c : Char) : List Nat :=
  let n := c.toNat
  if n < 128 then [n]
  else if n < 2048 then [192 + n / 64, 128 + n % 64]
  else if n < 65536 then [224 + n / 4096, 128 + (n / 64) % 64, 128 + n % 64]
  else [240 + n / 262144, 128 + (n / 4096) % 64, 128 + (n / 64) % 64,
    128 + n % 64]

/-- UTF-8 byte sequence of a string (`str.encode('utf-8')`). -/
def strBytes (s : String) : List Nat := (s.data.map utf8Bytes).flatten

/-- Embeds `hashlib.sha256(s.encode('utf-8')).hexdigest()`. -/
def sha256_hexdigest (s : String) : String :=
  (((sha256Words (strBytes s)).map word2hex).flatten).asString

/-! ## Integrity chain (src/Sovereignty/integrity_chain.py)

Data payloads are modelled as the serialisable values the chain receives:
plain strings and JSON dictionaries with string or integer leaves (the
source's `bytes` and `str(...)` fallback branches serve no analysed claim).
`datetime.utcnow()` becomes an explicit timestamp argument. -/

/-- Values of a structured payload dictionary. -/
inductive JsonVal where
  | s (v : String)
  | i (n : Int)
deriving DecidableEq, Repr

/-- Payloads accepted by `IntegrityChain._serialize_data`. -/
inductive PyData where
  | str (s : String)
  | dict (entries : List (String × JsonVal))
deriving DecidableEq, Repr

/-- Escape of one character inside a JSON string under
`json.dumps(..., ensure_ascii=False)`. -/
def escapeJsonChar (c : Char) : List Char :=
  if c = '"' then ['\\', '"']
  else if c = '\\' then ['\\', '\\']
  else if c = '\n' then ['\\', 'n']
  else if c = '\r' then ['\\', 'r']
  else if c = '\t' then ['\\', 't']
  else if c.toNat = 8 then ['\\', 'b']
  else if c.toNat = 12 then ['\\', 'f']
  else if c.toNat < 32 then
    let hi := hexDigitChar (c.toNat / 16)
    let lo := hexDigitChar (c.toNat % 16)
    '\\' :: 'u' :: '0' :: '0' :: [hi, lo]
  else [c]

/-- JSON rendering of a string literal. -/
def jsonString (s : String) : String :=
  ⟨'"' :: (s.data.map escapeJsonChar).flatten ++ ['"']⟩

/-- JSON rendering of a leaf value (Python's `json.dumps` integer and
string forms). -/
def jsonVal : JsonVal → String
  | .s v => jsonString v
  | .i n => toString n

/-- Key order used by `json.dumps(..., sort_keys=True)`: code-point
lexicographic order of the keys (Python's `str` comparison). -/
def keyOrder (a b : String × JsonVal) : Prop := a.1 ≤ b.1

instance : DecidableRel keyOrder := fun a b => by
  unfold keyOrder; infer_instance

/-- Embeds `json.dumps(data, sort_keys=True, ensure_ascii=False)` for a
dictionary: entries sorted by key, rendered with the default separators. -/
def jsonDict (entries : List (String × JsonVal)) : String :=
  let sorted := List.insertionSort keyOrder entries
  let parts := sorted.map (fun pr => jsonString pr.1 ++ ": " ++ jsonVal pr.2)
  "\x7b" ++ String.intercalate (r", ") parts ++ "\x7d"

/-- Embeds `IntegrityChain._serialize_data`. -/
def serialize_data : PyData → String
  | .str s => s
  | .dict entries => jsonDict entries

/-- Anchor constant `IntegrityChain.ROOT_HASH`. -/
def ROOT_HASH : String :=
  "606a347f6e2502a23179c18e4a637ca15138aa2f04194c6e6a578f8d1f8d7287"

/-- Anchor constant `IntegrityChain.CID`. -/
def CID : String :=
  "bafybeihqz3x7k5t2m4n6p8r9s1v3w5y7a9c1e3g5i7k9m1o3q5s7u9w1y3"

/-- Embeds `IntegrityChain.compute_data_hash`. -/
def compute_data_hash (data : PyData) : String :=
  sha256_hexdigest (serialize_data data)

/-- Embeds `IntegrityChain.compute_chain_hash`:
`SHA256(Data || Root_Hash || CID)` with literal `"||"` separators. -/
def compute_chain_hash (data : PyData) : String :=
  sha256_hexdigest (serialize_data data ++ "||" ++ ROOT_HASH ++ "||" ++ CID)

/-- Embeds the `IntegrityLink` dataclass (metadata modelled as a
string-to-string association list). -/
structure IntegrityLink where
  data_hash : String
  chain_hash : String
  root_hash : String
  cid : String
  timestamp : String
  metadata : List (String × String)
deriving DecidableEq, Repr

/-- Embeds `IntegrityChain.create_link` at wall time `timestamp`: both
hashes of the serialised data, the two anchors, and the metadata extended
with the `created_at` entry. -/
def create_link (data : PyData) (metadata : List (String × String))
    (timestamp : String) : IntegrityLink :=
  { data_hash := compute_data_hash data
    chain_hash := compute_chain_hash data
    root_hash := ROOT_HASH
    cid := CID
    timestamp := timestamp
    metadata := metadata ++ [((r"created_at"), timestamp)] }

/-- Embeds `IntegrityChain.verify_link`: fails closed on anchor mismatch,
then recomputes and compares both hashes. -/
def verify_link (data : PyData) (link : IntegrityLink) : Bool :=
  if link.root_hash ≠ ROOT_HASH then false
  else if link.cid ≠ CID then false
  else
    let data_valid := compute_data_hash data == link.data_hash
    let chain_valid := compute_chain_hash data == link.chain_hash
    data_valid && chain_valid

/-- Embeds `IntegrityChain.create_merkle_root`: empty string for no links,
otherwise one SHA-256 of the concatenation of all `chain_hash` values in
input order. -/
def create_merkle_root (links : List IntegrityLink) : String :=
  if links.isEmpty then ""
  else sha256_hexdigest (String.join (links.map (fun l => l.chain_hash)))

/-- Positional permutation of a list: entry `i` of the result is the entry
at position `σ i` of the input. -/
def applyPerm (xs : List IntegrityLink) (σ : Equiv.Perm (Fin xs.length)) :
    List IntegrityLink :=
  List.ofFn (fun i => xs.get (σ i))

/-! ## Instances and concrete inputs used by witnesses and counterexamples -/

/-- Concrete payload for the C9 witness. -/
def c9Data : PyData := PyData.str (r"forensic finding 42")

/-- Link over `c9Data` created at one wall time with empty metadata. -/
def c9LinkA : IntegrityLink := create_link c9Data [] (r"2024-01-01T00:00:00Z")

/-- Link over `c9Data` created at a different wall time with different
metadata; all four hash/anchor fields agree with `c9LinkA`. -/
def c9LinkB : IntegrityLink :=
  create_link c9Data [((r"note"), (r"altered"))] (r"2099-12-31T23:59:59Z")

/-- Key order is total (string order is). -/
instance : IsTotal (String × JsonVal) keyOrder := ⟨fun a b => le_total a.1 b.1⟩

/-- Key order is transitive (string order is). -/
instance : IsTrans (String × JsonVal) keyOrder := ⟨fun _ _ _ h1 h2 => le_trans h1 h2⟩

/-- Concrete dictionary entries for the C4 witness, keys out of order. -/
def c4E1 : List (String × JsonVal) := [((r"b"), JsonVal.i 1), ((r"a"), JsonVal.s (r"v"))]

/-- Permutation of `c4E1` with the keys in order. -/
def c4E2 : List (String × JsonVal) := [((r"a"), JsonVal.s (r"v")), ((r"b"), JsonVal.i 1)]

/-- Concrete link used twice in the C5 counterexample list. -/
def dupLink : IntegrityLink :=
  { data_hash := r"d", chain_hash := r"c", root_hash := ROOT_HASH, cid := CID,
    timestamp := r"t", metadata := [] }

/-- List holding the same link twice: swapping its entries is a
non-identity positional permutation that leaves the list unchanged. -/
def dupLinks : List IntegrityLink := [dupLink, dupLink]

/-- Transposition of the two positions of a two-element list. -/
def swapPerm : Equiv.Perm (Fin 2) := Equiv.swap 0 1

/-- Concrete link with a 64-character chain hash (C5 witness). -/
def wLinkA : IntegrityLink :=
  { data_hash := r"d1", chain_hash := r"aaaaaaaaaaaaaaaaaaaaaaaaaaaaaaaaaaaaaaaaaaaaaaaaaaaaaaaaaaaaaaaa",
    root_hash := ROOT_HASH, cid := CID, timestamp := r"t1", metadata := [] }

/-- Concrete link with a different 64-character chain hash (C5 witness). -/
def wLinkB : IntegrityLink :=
  { data_hash := r"d2", chain_hash := r"bbbbbbbbbbbbbbbbbbbbbbbbbbbbbbbbbbbbbbbbbbbbbbbbbbbbbbbbbbbbbbbb",
    root_hash := ROOT_HASH, cid := CID, timestamp := r"t2", metadata := [] }

/-- Two-element link list with distinct chain hashes (C5 witness). -/
def wLinks : List IntegrityLink := [wLinkA, wLinkB]

/-- Concrete interaction log whose origin/control pair yields `I_D = 1/2`
(C7 witness). -/
def c7Log : InteractionLog :=
  { session_id := r"s1", timestamp := 0, prompt := r"p",
    response_origin := r"ab ab", response_control := r"ab",
    root_hash := r"", session_hash := r"" }

/-! ## Helper predicate and supporting lemmas -/

/-- Holds when every successfully returned value satisfies `P` (a raised
exception makes no claim). -/
def ExceptOK {ε α : Type} (P : α → Prop) : Except ε α → Prop
  | Except.ok a => P a
  | Except.error _ => True

/-- Positions active in both vectors are in particular active in the first:
the intersection count never exceeds the first count. -/
theorem countP_zip_le {α : Type} (f : α → Bool) :
    ∀ v w : List α, ((v.zip w).countP fun pr => f pr.1 && f pr.2) ≤ v.countP f := by
  intro v
  induction v with
  | nil => intro w; simp
  | cons a t ih =>
    intro w
    cases w with
    | nil => simp
    | cons b tw =>
      simp only [List.zip_cons_cons, List.countP_cons]
      have h := ih tw
      by_cases hab : (f a && f b) = true
      · have hab' : f a = true ∧ f b = true := by simpa using hab
        simp [hab, hab'.1, hab'.2]
        omega
      · simp [hab]
        split <;> omega

/-- Intersection dimensionality is bounded by the origin dimensionality. -/
theorem dim_intersection_le_dim_V_O (vO vC : List ℚ) :
    (dimensionality_intersection vO vC).dim_intersection ≤
      (dimensionality_intersection vO vC).dim_V_O :=
  countP_zip_le isActive vO vC

/-- C2: for every pair of input texts, the returned `DegradationResult`
satisfies `0 ≤ I_D ≤ 1`, and `I_D = 0` holds exactly when
`dim_intersection = dim_V_O` (including the degenerate `dim_V_O = 0`
case). -/
theorem degradation_index_bounds :
    ∀ tO tC : String,
      ExceptOK (fun r : DegradationResult =>
        0 ≤ r.I_D ∧ r.I_D ≤ 1 ∧ (r.I_D = 0 ↔ r.dim_intersection = r.dim_V_O))
        (calculate tO tC) := by
  intro tO tC
  unfold calculate
  cases hft : fit_transform tO tC with
  | error e => simp [ExceptOK]
  | ok pair =>
    obtain ⟨vO, vC⟩ := pair
    have hle := dim_intersection_le_dim_V_O vO vC
    simp only [ExceptOK]
    set d := dimensionality_intersection vO vC with hd
    by_cases h0 : d.dim_V_O = 0
    · simp [h0]
      omega
    · have hpos : (0 : ℚ) < (d.dim_V_O : ℚ) := by
        have := Nat.pos_of_ne_zero h0
        exact_mod_cast this
      have hratio_le : (d.dim_intersection : ℚ) / (d.dim_V_O : ℚ) ≤ 1 := by
        rw [div_le_one hpos]
        exact_mod_cast hle
      have hratio_nonneg : (0 : ℚ) ≤ (d.dim_intersection : ℚ) / (d.dim_V_O : ℚ) := by
        positivity
      simp [h0]
      refine ⟨by linarith, by linarith, ?_⟩
      constructor
      · intro h
        have : (d.dim_intersection : ℚ) / (d.dim_V_O : ℚ) = 1 := by linarith
        have h2 : (d.dim_intersection : ℚ) = (d.dim_V_O : ℚ) := by
          field_simp at this
          exact_mod_cast this
        exact_mod_cast h2
      · intro h
        have : (d.dim_intersection : ℚ) = (d.dim_V_O : ℚ) := by exact_mod_cast h
        rw [this]
        field_simp

/-- C3: the status field is a deterministic function of `I_D` against the
two fixed thresholds: `I_D ≥ 0.40` yields the critical-interference status,
`0.25 ≤ I_D < 0.40` the high-interference status, and `I_D < 0.25` the
stable status, with no other outcome possible. -/
theorem degradation_status_of_thresholds :
    ∀ tO tC : String,
      ExceptOK (fun r : DegradationResult =>
        (r.status = statusCritical ↔ CRITICAL_THRESHOLD ≤ r.I_D) ∧
        (r.status = statusHigh ↔ (HIGH_THRESHOLD ≤ r.I_D ∧ r.I_D < CRITICAL_THRESHOLD)) ∧
        (r.status = statusStable ↔ r.I_D < HIGH_THRESHOLD))
        (calculate tO tC) := by
  intro tO tC
  unfold calculate
  cases hft : fit_transform tO tC with
  | error e => simp [ExceptOK]
  | ok pair =>
    obtain ⟨vO, vC⟩ := pair
    simp only [ExceptOK]
    set d := dimensionality_intersection vO vC with hd
    set I : ℚ := if d.dim_V_O = 0 then 0
      else 1 - (if d.dim_V_O = 0 then 0 else (d.dim_intersection : ℚ) / (d.dim_V_O : ℚ)) with hI
    by_cases hc : CRITICAL_THRESHOLD ≤ I
    · have hh : HIGH_THRESHOLD ≤ I := le_trans (by norm_num [HIGH_THRESHOLD, CRITICAL_THRESHOLD]) hc
      simp [hc, hh, statusCritical, statusHigh, statusStable]
    · by_cases hh : HIGH_THRESHOLD ≤ I
      · simp [hc, hh, statusCritical, statusHigh, statusStable]
        exact not_le.mp hc
      · simp [hc, hh, statusCritical, statusHigh, statusStable]
        exact not_le.mp hh

/-- C10: in every returned `DegradationResult` the `interference_detected`
flag is true exactly when `I_D ≥ 0.25`, i.e. exactly when the status is not
the stable status — flag, status and `I_D` are mutually consistent. -/
theorem interference_flag_consistent :
    ∀ tO tC : String,
      ExceptOK (fun r : DegradationResult =>
        (r.interference_detected = true ↔ HIGH_THRESHOLD ≤ r.I_D) ∧
        (r.interference_detected = true ↔ r.status ≠ statusStable))
        (calculate tO tC) := by
  intro tO tC
  unfold calculate
  cases hft : fit_transform tO tC with
  | error e => simp [ExceptOK]
  | ok pair =>
    obtain ⟨vO, vC⟩ := pair
    simp only [ExceptOK]
    set d := dimensionality_intersection vO vC with hd
    set I : ℚ := if d.dim_V_O = 0 then 0
      else 1 - (if d.dim_V_O = 0 then 0 else (d.dim_intersection : ℚ) / (d.dim_V_O : ℚ)) with hI
    by_cases hc : CRITICAL_THRESHOLD ≤ I
    · have hh : HIGH_THRESHOLD ≤ I := le_trans (by norm_num [HIGH_THRESHOLD, CRITICAL_THRESHOLD]) hc
      simp [hc, hh, statusCritical, statusStable]
    · by_cases hh : HIGH_THRESHOLD ≤ I
      · simp [hc, hh, statusHigh, statusStable]
      · simp [hc, hh, statusStable]

/-- C1 (amended): when the origin text has no token of length at least two
but the joint vocabulary is non-empty (the control text has one),
`calculate` returns the neutral result with `I_D = 0` through the
`dim_V_O = 0` branch — stable status, no interference flag — rather than
raising.  (When both texts are degenerate the vectorizer raises instead;
see the counterexample.) -/
theorem calculate_degenerate_origin_neutral :
    ∀ tO tC : String, tokenize tO = [] → buildVocab tO tC ≠ [] →
      ∃ r, calculate tO tC = Except.ok r ∧ r.I_D = 0 ∧ r.dim_V_O = 0 ∧
        r.status = statusStable ∧ r.interference_detected = false := by
  intro tO tC htok hvocab
  have hng : ngrams tO = [] := by simp [ngrams, htok, bigrams]
  have hfit : fit_transform tO tC = Except.ok
      ((buildVocab tO tC).map (fun g => ((ngrams tO).count g : ℚ)),
       (buildVocab tO tC).map (fun g => ((ngrams tC).count g : ℚ))) := by
    unfold fit_transform
    simp [hvocab]
  have hdim : (dimensionality_intersection
      ((buildVocab tO tC).map (fun g => ((ngrams tO).count g : ℚ)))
      ((buildVocab tO tC).map (fun g => ((ngrams tC).count g : ℚ)))).dim_V_O = 0 := by
    unfold dimensionality_intersection
    simp only [List.countP_eq_zero, List.mem_map]
    rintro x ⟨g, hg, rfl⟩
    simp [hng, isActive]
  unfold calculate
  rw [hfit]
  simp only [ExceptOK]
  refine ⟨_, rfl, ?_, ?_, ?_, ?_⟩
  · simp [hdim]
  · simpa using hdim
  · simp [hdim]
    norm_num [CRITICAL_THRESHOLD, HIGH_THRESHOLD, statusStable]
  · simp [hdim]
    norm_num [CRITICAL_THRESHOLD, HIGH_THRESHOLD]

/-- C1 (counterexample): on the empty/degenerate pair the claim fails —
`calculate` propagates sklearn's empty-vocabulary `ValueError` instead of
returning a neutral `DegradationResult`. -/
theorem calculate_empty_pair_raises :
    calculate (r"") (r"") = Except.error emptyVocabMsg := rfl

/-- C1 (witness): the amended statement applied to the concrete pair of an
empty origin and the control text `"ab"`. -/
theorem calculate_degenerate_origin_neutral_witness :
    tokenize (r"") = [] ∧ buildVocab (r"") (r"ab") ≠ [] ∧
    (∃ r, calculate (r"") (r"ab") = Except.ok r ∧ r.I_D = 0 ∧ r.dim_V_O = 0 ∧
      r.status = statusStable ∧ r.interference_detected = false) :=
  ⟨rfl, by decide, calculate_degenerate_origin_neutral (r"") (r"ab") rfl (by decide)⟩

/-- C6: on a freshly constructed `SemanticVectorSpace`, each metric
operation (`cosine_distance`, `cosine_similarity_score`, `kl_divergence`,
`dimensionality_intersection`, `analyze_semantic_overlap`) fails with the
not-initialised `ValueError` rather than returning a value. -/
theorem metrics_before_fit_raise :
    newSpace.cosine_distance = Except.error notInitMsgLong ∧
    newSpace.cosine_similarity_score = Except.error notInitMsgShort ∧
    newSpace.kl_divergence = Except.error notInitMsgShort ∧
    newSpace.dims = Except.error notInitMsgShort ∧
    newSpace.analyze_semantic_overlap = Except.error notInitMsgShort :=
  ⟨rfl, rfl, rfl, rfl, rfl⟩

/-- C9: the boolean result of `verify_link` does not depend on the link's
`timestamp` or `metadata` fields — two links agreeing on `data_hash`,
`chain_hash`, `root_hash` and `cid` verify identically against the same
data, so tampering with those two fields alone is never detected. -/
theorem verify_link_ignores_timestamp_metadata :
    ∀ (data : PyData) (l1 l2 : IntegrityLink),
      l1.data_hash = l2.data_hash → l1.chain_hash = l2.chain_hash →
      l1.root_hash = l2.root_hash → l1.cid = l2.cid →
      verify_link data l1 = verify_link data l2 := by
  intro data l1 l2 h1 h2 h3 h4
  unfold verify_link
  rw [h1, h2, h3, h4]

/-- C9 (witness): two concrete links over the same payload differing in
timestamp and metadata verify identically. -/
theorem verify_link_ignores_timestamp_metadata_witness :
    c9LinkA.timestamp ≠ c9LinkB.timestamp ∧ c9LinkA.metadata ≠ c9LinkB.metadata ∧
    verify_link c9Data c9LinkA = verify_link c9Data c9LinkB :=
  ⟨by decide, by decide,
    verify_link_ignores_timestamp_metadata c9Data c9LinkA c9LinkB rfl rfl rfl rfl⟩

/-- Entries mapped to `none` can be filtered away without changing a
`filterMap`. -/
theorem filterMap_eq_filterMap_filter {α β : Type} (f : α → Option β)
    (keep : α → Bool) (h : ∀ a, keep a = false → f a = none) :
    ∀ l : List α, l.filterMap f = (l.filter keep).filterMap f := by
  intro l
  induction l with
  | nil => rfl
  | cons a t ih =>
    cases hk : keep a
    · simp [List.filter_cons, hk, List.filterMap_cons, h a hk, ih]
    · simp [List.filter_cons, hk, List.filterMap_cons, ih]

/-- Distance collection of `calculate_gradient`: comparisons whose
pair-local feature space cannot be built contribute nothing, so the
collected distances equal those over the retained responses. -/
theorem gradient_distances_skip (resp : String) (ps : List String) :
    (ps.filterMap fun p => match cosineDistancePair resp p with
      | .error _ => none
      | .ok d => some d) =
    ((ps.filter fun p => !(buildVocab resp p).isEmpty).filterMap
      fun p => match cosineDistancePair resp p with
      | .error _ => none
      | .ok d => some d) := by
  apply filterMap_eq_filterMap_filter
  intro p hp
  have hemp : (buildVocab resp p).isEmpty = true := by
    cases hv : (buildVocab resp p).isEmpty
    · rw [hv] at hp; simp at hp
    · rfl
  simp [cosineDistancePair, fit_transform, hemp]

/-- C8: in `validate_invariance`, each base-vs-perturbed comparison that
raises internally (empty joint vocabulary) is skipped without failing the
whole validation — the gradient equals the one over the retained
responses — and when every comparison is skipped (including the empty-list
case) the result is the zero/neutral one with
`gradient_magnitude = mean_distance = std_distance = 0`. -/
theorem invariance_skipped_comparisons :
    ∀ (resp : String) (ps : List String),
      calculate_gradient resp ps =
        calculate_gradient resp (ps.filter fun p => !(buildVocab resp p).isEmpty) ∧
      ((∀ p ∈ ps, (buildVocab resp p).isEmpty = true) →
        (validate_invariance resp ps).gradient_magnitude = 0 ∧
        (validate_invariance resp ps).mean_distance = 0 ∧
        (validate_invariance resp ps).std_distance = 0) := by
  intro resp ps
  have hmain : calculate_gradient resp ps =
      calculate_gradient resp (ps.filter fun p => !(buildVocab resp p).isEmpty) := by
    unfold calculate_gradient
    rw [gradient_distances_skip]
    by_cases hps : ps.isEmpty
    · have h0 : ps = [] := List.isEmpty_iff.mp hps
      subst h0
      simp
    · simp only [hps, Bool.false_eq_true, if_false]
      by_cases hfil : (ps.filter fun p => !(buildVocab resp p).isEmpty).isEmpty
      · have h0 : (ps.filter fun p => !(buildVocab resp p).isEmpty) = [] :=
          List.isEmpty_iff.mp hfil
        rw [h0]
        simp
      · simp [hfil]
  refine ⟨hmain, ?_⟩
  intro hall
  have hfil : (ps.filter fun p => !(buildVocab resp p).isEmpty) = [] := by
    apply List.filter_eq_nil_iff.mpr
    intro p hp
    simp [hall p hp]
  have hzero : calculate_gradient resp ps = zeroGradient := by
    rw [hmain, hfil]
    simp [calculate_gradient, zeroGradient]
  refine ⟨?_, ?_, ?_⟩ <;> simp [validate_invariance, hzero, zeroGradient]

/-- C8 (witness): with an empty base response and the single degenerate
perturbed response `"x"`, every comparison is skipped and the neutral zero
result is returned. -/
theorem invariance_skipped_comparisons_witness :
    (∀ p ∈ ([r"x"] : List String), (buildVocab (r"") p).isEmpty = true) ∧
    ((validate_invariance (r"") [r"x"]).gradient_magnitude = 0 ∧
     (validate_invariance (r"") [r"x"]).mean_distance = 0 ∧
     (validate_invariance (r"") [r"x"]).std_distance = 0) :=
  ⟨by decide, (invariance_skipped_comparisons (r"") [r"x"]).2 (by decide)⟩

/-- Two key-sorted permutations of each other with duplicate-free keys are
equal. -/
theorem sorted_perm_nodup_eq :
    ∀ l₁ l₂ : List (String × JsonVal), l₁.Perm l₂ →
      l₁.Sorted keyOrder → l₂.Sorted keyOrder → (l₁.map Prod.fst).Nodup →
      l₁ = l₂ := by
  intro l₁
  induction l₁ with
  | nil =>
    intro l₂ hp _ _ _
    exact List.Perm.nil_eq hp
  | cons a t ih =>
    intro l₂ hp hs₁ hs₂ hnd
    cases l₂ with
    | nil => exact absurd hp.symm (by simp)
    | cons b t₂ =>
      have hab : a = b := by
        have hamem : a ∈ b :: t₂ := hp.mem_iff.mp (List.mem_cons_self a t)
        have hbmem : b ∈ a :: t := hp.mem_iff.mpr (List.mem_cons_self b t₂)
        rcases List.mem_cons.mp hamem with h | hat₂
        · exact h
        rcases List.mem_cons.mp hbmem with h | hbt
        · exact h.symm
        have h1 : keyOrder a b := List.rel_of_sorted_cons hs₁ b hbt
        have h2 : keyOrder b a := List.rel_of_sorted_cons hs₂ a hat₂
        have hkey : a.1 = b.1 := le_antisymm h1 h2
        have hnotin : a.1 ∉ t.map Prod.fst := by
          rw [List.map_cons] at hnd
          exact (List.nodup_cons.mp hnd).1
        exact absurd (by rw [hkey]; exact List.mem_map_of_mem Prod.fst hbt) hnotin
      subst hab
      have htails : t.Perm t₂ := hp.cons_inv
      have hndt : (t.map Prod.fst).Nodup := by
        rw [List.map_cons] at hnd
        exact (List.nodup_cons.mp hnd).2
      have := ih t₂ htails (List.Sorted.of_cons hs₁) (List.Sorted.of_cons hs₂) hndt
      rw [this]

/-- Dictionary serialisation is insensitive to entry order when the keys
are duplicate-free (`sort_keys=True`). -/
theorem jsonDict_perm (e₁ e₂ : List (String × JsonVal)) (hp : e₁.Perm e₂)
    (hnd : (e₁.map Prod.fst).Nodup) : jsonDict e₁ = jsonDict e₂ := by
  have hperm₁ := List.perm_insertionSort keyOrder e₁
  have hperm₂ := List.perm_insertionSort keyOrder e₂
  have hs₁ := List.sorted_insertionSort keyOrder e₁
  have hs₂ := List.sorted_insertionSort keyOrder e₂
  have hsp : (List.insertionSort keyOrder e₁).Perm (List.insertionSort keyOrder e₂) :=
    (hperm₁.trans hp).trans hperm₂.symm
  have hnds : ((List.insertionSort keyOrder e₁).map Prod.fst).Nodup :=
    ((hperm₁.map Prod.fst).nodup_iff).mpr hnd
  have heq := sorted_perm_nodup_eq _ _ hsp hs₁ hs₂ hnds
  unfold jsonDict
  rw [heq]

/-- C4: `create_link` produces `data_hash = SHA256(serialize(data))` and
`chain_hash = SHA256(serialize(data) ‖ "||" ‖ ROOT_HASH ‖ "||" ‖ CID)`,
stores the two anchor constants unchanged in the returned link, and the
serialisation is deterministic: strings serialise as themselves and
dictionaries as JSON with sorted keys (entry order immaterial for
duplicate-free keys). -/
theorem create_link_hash_structure :
    ∀ (data : PyData) (metadata : List (String × String)) (ts : String),
      ((create_link data metadata ts).data_hash =
         sha256_hexdigest (serialize_data data) ∧
       (create_link data metadata ts).chain_hash =
         sha256_hexdigest (serialize_data data ++ "||" ++ ROOT_HASH ++ "||" ++ CID) ∧
       (create_link data metadata ts).root_hash = ROOT_HASH ∧
       (create_link data metadata ts).cid = CID) ∧
      (∀ s : String, serialize_data (PyData.str s) = s) ∧
      (∀ e₁ e₂ : List (String × JsonVal), e₁.Perm e₂ →
        (e₁.map Prod.fst).Nodup →
        serialize_data (PyData.dict e₁) = serialize_data (PyData.dict e₂)) := by
  intro data metadata ts
  refine ⟨⟨rfl, rfl, rfl, rfl⟩, fun s => rfl, ?_⟩
  intro e₁ e₂ hp hnd
  simpa [serialize_data] using jsonDict_perm e₁ e₂ hp hnd

/-- C4 (witness): the serialisation determinism applied to the concrete
reordered dictionaries `c4E1`/`c4E2`. -/
theorem create_link_hash_structure_witness :
    c4E1.Perm c4E2 ∧ (c4E1.map Prod.fst).Nodup ∧
    serialize_data (PyData.dict c4E1) = serialize_data (PyData.dict c4E2) := by
  have hp : c4E1.Perm c4E2 := List.Perm.swap _ _ _
  have hnd : (c4E1.map Prod.fst).Nodup := by decide
  exact ⟨hp, hnd,
    (create_link_hash_structure (PyData.str (r"")) [] (r"")).2.2 c4E1 c4E2 hp hnd⟩

/-- Concatenation of fixed-width (64-character) blocks determines the
blocks. -/
theorem flatten_blocks_inj :
    ∀ as bs : List (List Char), (∀ x ∈ as, x.length = 64) →
      (∀ x ∈ bs, x.length = 64) → as.length = bs.length →
      as.flatten = bs.flatten → as = bs := by
  intro as
  induction as with
  | nil =>
    intro bs _ _ hlen _
    cases bs with
    | nil => rfl
    | cons b tb => simp at hlen
  | cons a t ih =>
    intro bs ha hb hlen hf
    cases bs with
    | nil => simp at hlen
    | cons b tb =>
      simp only [List.flatten_cons] at hf
      have hlab : a.length = b.length := by
        rw [ha a (List.mem_cons_self a t), hb b (List.mem_cons_self b tb)]
      obtain ⟨h1, h2⟩ := List.append_inj hf hlab
      have ht := ih tb (fun x hx => ha x (List.mem_cons_of_mem a hx))
        (fun x hx => hb x (List.mem_cons_of_mem b hx)) (by simpa using hlen) h2
      rw [h1, ht]

/-- Joining equally many 64-character strings is injective. -/
theorem join_blocks_inj (as bs : List String)
    (ha : ∀ x ∈ as, x.length = 64) (hb : ∀ x ∈ bs, x.length = 64)
    (hlen : as.length = bs.length) (hj : String.join as = String.join bs) :
    as = bs := by
  have hdata : (as.map String.data).flatten = (bs.map String.data).flatten := by
    have h := congrArg String.data hj
    rw [String.join_eq, String.join_eq] at h
    exact h
  have hmap : as.map String.data = bs.map String.data := by
    apply flatten_blocks_inj
    · intro x hx
      rcases List.mem_map.mp hx with ⟨s, hs, rfl⟩
      exact ha s hs
    · intro x hx
      rcases List.mem_map.mp hx with ⟨s, hs, rfl⟩
      exact hb s hs
    · simpa using hlen
    · exact hdata
  have hinj : Function.Injective String.data := by
    intro x y hxy
    cases x
    cases y
    exact congrArg String.mk hxy
  exact List.map_injective_iff.mpr hinj hmap

/-- C5 (counterexample): the claim fails as stated — swapping the two
entries of a list holding the same link twice is a non-identity positional
permutation, yet the Merkle root is unchanged. -/
theorem merkle_root_swap_duplicate_counterexample :
    swapPerm ≠ Equiv.refl (Fin 2) ∧
    applyPerm dupLinks swapPerm = dupLinks ∧
    create_merkle_root (applyPerm dupLinks swapPerm) = create_merkle_root dupLinks := by
  have h2 : applyPerm dupLinks swapPerm = dupLinks := by decide
  refine ⟨by decide, h2, by rw [h2]⟩

/-- C5 (amended): the root is the single SHA-256 of the concatenation of
all `chain_hash` values in input order, and it is order-sensitive at the
pre-image level: whenever a positional permutation changes the sequence of
(64-character) `chain_hash` values, the concatenated string fed to SHA-256
changes.  (Equal roots for different pre-images would need a SHA-256
collision; a permutation that fixes the chain-hash sequence, such as
swapping duplicate links, leaves the root unchanged.) -/
theorem merkle_preimage_order_sensitivity :
    (∀ links : List IntegrityLink, links ≠ [] →
      create_merkle_root links =
        sha256_hexdigest (String.join (links.map fun l => l.chain_hash))) ∧
    (∀ (links : List IntegrityLink) (σ : Equiv.Perm (Fin links.length)),
      (∀ l ∈ links, l.chain_hash.length = 64) →
      (applyPerm links σ).map (fun l => l.chain_hash) ≠
        links.map (fun l => l.chain_hash) →
      String.join ((applyPerm links σ).map fun l => l.chain_hash) ≠
        String.join (links.map fun l => l.chain_hash)) := by
  constructor
  · intro links hne
    unfold create_merkle_root
    simp [hne]
  · intro links σ hlen hmaps hj
    apply hmaps
    apply join_blocks_inj _ _ ?_ ?_ ?_ hj
    · intro x hx
      rcases List.mem_map.mp hx with ⟨l, hl, rfl⟩
      rcases Set.mem_range.mp ((List.mem_ofFn _ _).mp hl) with ⟨i, rfl⟩
      exact hlen _ (List.get_mem links (σ i).1 (σ i).2)
    · intro x hx
      rcases List.mem_map.mp hx with ⟨l, hl, rfl⟩
      exact hlen l hl
    · simp [applyPerm]

/-- C5 (witness): both amended statements applied to the concrete
two-link list `wLinks` and the transposition of its entries. -/
theorem merkle_preimage_order_sensitivity_witness :
    (wLinks ≠ [] ∧
     create_merkle_root wLinks =
       sha256_hexdigest (String.join (wLinks.map fun l => l.chain_hash))) ∧
    ((∀ l ∈ wLinks, l.chain_hash.length = 64) ∧
     (applyPerm wLinks swapPerm).map (fun l => l.chain_hash) ≠
       wLinks.map (fun l => l.chain_hash) ∧
     String.join ((applyPerm wLinks swapPerm).map fun l => l.chain_hash) ≠
       String.join (wLinks.map fun l => l.chain_hash)) :=
  ⟨⟨by decide, merkle_preimage_order_sensitivity.1 wLinks (by decide)⟩,
   ⟨by decide, by decide,
    merkle_preimage_order_sensitivity.2 wLinks swapPerm (by decide) (by decide)⟩⟩

/-- Batch monitoring returns one result per log when it succeeds. -/
theorem monitorFrom_length (clock : Nat → ℚ) :
    ∀ (i : Nat) (logs : List InteractionLog) (res : List MonitoringResult),
      monitorFrom clock i logs = Except.ok res → res.length = logs.length := by
  intro i logs
  induction logs generalizing i with
  | nil =>
    intro res h
    simp [monitorFrom] at h
    simp [← h]
  | cons log rest ih =>
    intro res h
    simp only [monitorFrom] at h
    cases hm : monitor_log (clock i) log with
    | error e => rw [hm] at h; exact absurd h (by simp)
    | ok r =>
      rw [hm] at h
      cases hrest : monitorFrom clock (i + 1) rest with
      | error e => rw [hrest] at h; exact absurd h (by simp)
      | ok rs =>
        rw [hrest] at h
        simp at h
        rw [← h]
        simp [ih (i + 1) rs hrest]

/-- Characterisation of `_assess_thermal_death_risk`: the rating counts
how many of the three factors hold — all three give CRITICAL, exactly two
HIGH, exactly one MEDIUM, none LOW. -/
theorem assess_spec (m s r : ℚ) :
    ((assess_thermal_death_risk m s r = "CRITICAL") ↔
      ((35/100 : ℚ) ≤ m ∧ TemporalAnalyzer.MODERATE_THRESHOLD < s ∧ (1/2 : ℚ) < r)) ∧
    ((assess_thermal_death_risk m s r = "HIGH") ↔
      (((35/100 : ℚ) ≤ m ∧ TemporalAnalyzer.MODERATE_THRESHOLD < s ∧ ¬((1/2 : ℚ) < r)) ∨
       ((35/100 : ℚ) ≤ m ∧ ¬(TemporalAnalyzer.MODERATE_THRESHOLD < s) ∧ (1/2 : ℚ) < r) ∨
       (¬((35/100 : ℚ) ≤ m) ∧ TemporalAnalyzer.MODERATE_THRESHOLD < s ∧ (1/2 : ℚ) < r))) ∧
    ((assess_thermal_death_risk m s r = "MEDIUM") ↔
      (((35/100 : ℚ) ≤ m ∧ ¬(TemporalAnalyzer.MODERATE_THRESHOLD < s) ∧ ¬((1/2 : ℚ) < r)) ∨
       (¬((35/100 : ℚ) ≤ m) ∧ TemporalAnalyzer.MODERATE_THRESHOLD < s ∧ ¬((1/2 : ℚ) < r)) ∨
       (¬((35/100 : ℚ) ≤ m) ∧ ¬(TemporalAnalyzer.MODERATE_THRESHOLD < s) ∧ (1/2 : ℚ) < r))) ∧
    ((assess_thermal_death_risk m s r = "LOW") ↔
      (¬((35/100 : ℚ) ≤ m) ∧ ¬(TemporalAnalyzer.MODERATE_THRESHOLD < s) ∧
        ¬((1/2 : ℚ) < r))) := by
  unfold assess_thermal_death_risk
  by_cases h1 : (35/100 : ℚ) ≤ m <;>
    by_cases h2 : TemporalAnalyzer.MODERATE_THRESHOLD < s <;>
    by_cases h3 : (1/2 : ℚ) < r <;>
    simp only [h1, h2, h3, decide_True, decide_False] <;>
    simp

/-- C7: for every non-empty measurement sequence, `analyze_period`
assigns the risk rating by the 3-factor score — one point each for
`mean_I_D ≥ 0.35`, trend slope `> 0.15` and intervention rate `> 0.5` —
yielding CRITICAL exactly when all three factors hold, HIGH when exactly
two hold, MEDIUM when exactly one holds, and LOW when none holds. -/
theorem analyze_period_risk_rating :
    ∀ (clock : Nat → ℚ) (logs : List InteractionLog), logs ≠ [] →
      ExceptOK (fun m : TemporalMetrics =>
        ((m.thermal_death_risk = "CRITICAL") ↔
          ((35/100 : ℚ) ≤ m.mean_I_D ∧
           TemporalAnalyzer.MODERATE_THRESHOLD < m.trend_slope ∧
           (1/2 : ℚ) < (m.interventions_count : ℚ) / (m.total_interactions : ℚ))) ∧
        ((m.thermal_death_risk = "HIGH") ↔
          (((35/100 : ℚ) ≤ m.mean_I_D ∧
            TemporalAnalyzer.MODERATE_THRESHOLD < m.trend_slope ∧
            ¬((1/2 : ℚ) < (m.interventions_count : ℚ) / (m.total_interactions : ℚ))) ∨
           ((35/100 : ℚ) ≤ m.mean_I_D ∧
            ¬(TemporalAnalyzer.MODERATE_THRESHOLD < m.trend_slope) ∧
            (1/2 : ℚ) < (m.interventions_count : ℚ) / (m.total_interactions : ℚ)) ∨
           (¬((35/100 : ℚ) ≤ m.mean_I_D) ∧
            TemporalAnalyzer.MODERATE_THRESHOLD < m.trend_slope ∧
            (1/2 : ℚ) < (m.interventions_count : ℚ) / (m.total_interactions : ℚ)))) ∧
        ((m.thermal_death_risk = "MEDIUM") ↔
          (((35/100 : ℚ) ≤ m.mean_I_D ∧
            ¬(TemporalAnalyzer.MODERATE_THRESHOLD < m.trend_slope) ∧
            ¬((1/2 : ℚ) < (m.interventions_count : ℚ) / (m.total_interactions : ℚ))) ∨
           (¬((35/100 : ℚ) ≤ m.mean_I_D) ∧
            TemporalAnalyzer.MODERATE_THRESHOLD < m.trend_slope ∧
            ¬((1/2 : ℚ) < (m.interventions_count : ℚ) / (m.total_interactions : ℚ))) ∨
           (¬((35/100 : ℚ) ≤ m.mean_I_D) ∧
            ¬(TemporalAnalyzer.MODERATE_THRESHOLD < m.trend_slope) ∧
            (1/2 : ℚ) < (m.interventions_count : ℚ) / (m.total_interactions : ℚ)))) ∧
        ((m.thermal_death_risk = "LOW") ↔
          (¬((35/100 : ℚ) ≤ m.mean_I_D) ∧
           ¬(TemporalAnalyzer.MODERATE_THRESHOLD < m.trend_slope) ∧
           ¬((1/2 : ℚ) < (m.interventions_count : ℚ) / (m.total_interactions : ℚ)))))
        (analyze_period clock logs) := by
  intro clock logs hne
  unfold analyze_period
  have hie : logs.isEmpty = false := by
    cases logs with
    | nil => exact absurd rfl hne
    | cons a t => rfl
  simp only [hie, Bool.false_eq_true, if_false]
  cases hbm : batch_monitor clock logs with
  | error e => simp [ExceptOK]
  | ok results =>
    have hlen : results.length = logs.length :=
      monitorFrom_length clock 0 logs results hbm
    have hrne : results.isEmpty = false := by
      cases results with
      | nil =>
        cases logs with
        | nil => exact absurd rfl hne
        | cons a t => simp at hlen
      | cons a t => rfl
    simp only [ExceptOK, hrne, Bool.false_eq_true, if_false]
    rw [hlen]
    exact assess_spec _ _ _

/-- C7 (witness): the risk characterisation applied to the concrete
one-log sequence `[c7Log]`. -/
theorem analyze_period_risk_rating_witness :
    ([c7Log] ≠ ([] : List InteractionLog)) ∧
    ExceptOK (fun m : TemporalMetrics =>
      ((m.thermal_death_risk = "CRITICAL") ↔
        ((35/100 : ℚ) ≤ m.mean_I_D ∧
         TemporalAnalyzer.MODERATE_THRESHOLD < m.trend_slope ∧
         (1/2 : ℚ) < (m.interventions_count : ℚ) / (m.total_interactions : ℚ))) ∧
      ((m.thermal_death_risk = "HIGH") ↔
        (((35/100 : ℚ) ≤ m.mean_I_D ∧
          TemporalAnalyzer.MODERATE_THRESHOLD < m.trend_slope ∧
          ¬((1/2 : ℚ) < (m.interventions_count : ℚ) / (m.total_interactions : ℚ))) ∨
         ((35/100 : ℚ) ≤ m.mean_I_D ∧
          ¬(TemporalAnalyzer.MODERATE_THRESHOLD < m.trend_slope) ∧
          (1/2 : ℚ) < (m.interventions_count : ℚ) / (m.total_interactions : ℚ)) ∨
         (¬((35/100 : ℚ) ≤ m.mean_I_D) ∧
          TemporalAnalyzer.MODERATE_THRESHOLD < m.trend_slope ∧
          (1/2 : ℚ) < (m.interventions_count : ℚ) / (m.total_interactions : ℚ)))) ∧
      ((m.thermal_death_risk = "MEDIUM") ↔
        (((35/100 : ℚ) ≤ m.mean_I_D ∧
          ¬(TemporalAnalyzer.MODERATE_THRESHOLD < m.trend_slope) ∧
          ¬((1/2 : ℚ) < (m.interventions_count : ℚ) / (m.total_interactions : ℚ))) ∨
         (¬((35/100 : ℚ) ≤ m.mean_I_D) ∧
          TemporalAnalyzer.MODERATE_THRESHOLD < m.trend_slope ∧
          ¬((1/2 : ℚ) < (m.interventions_count : ℚ) / (m.total_interactions : ℚ))) ∨
         (¬((35/100 : ℚ) ≤ m.mean_I_D) ∧
          ¬(TemporalAnalyzer.MODERATE_THRESHOLD < m.trend_slope) ∧
          (1/2 : ℚ) < (m.interventions_count : ℚ) / (m.total_interactions : ℚ)))) ∧
      ((m.thermal_death_risk = "LOW") ↔
        (¬((35/100 : ℚ) ≤ m.mean_I_D) ∧
         ¬(TemporalAnalyzer.MODERATE_THRESHOLD < m.trend_slope) ∧
         ¬((1/2 : ℚ) < (m.interventions_count : ℚ) / (m.total_interactions : ℚ)))))
      (analyze_period (fun _ => 0) [c7Log]) :=
  ⟨List.cons_ne_nil c7Log [],
   analyze_period_risk_rating (fun _ => 0) [c7Log] (List.cons_ne_nil c7Log [])⟩
